import Mathlib

/-!
Shallow embedding of `utils.py` from the djiboutitriggerselectionMarch2024
repository, together with theorems checking the natural-language
specification against it.

Numeric values carried by the API and the data frames are modelled as
rationals (ℚ).  A pandas value that would be NaN (division by zero, a
failed dictionary lookup in `.map`, the `None` returned by the Python
`print` call used as an error marker) is modelled as `none : Option ℚ`.
HTTP requests are modelled by passing the response (or a fetch oracle)
as an explicit argument; `print` diagnostics are not modelled.
-/

/-! ## Data model for `get_data` (utils.py lines 42-162) -/

/-- Scalar metrics of the export API response: the non-nested JSON fields
`threshold`, `skill.accuracy`, `skill.act_in_vain`, `skill.fail_to_act`,
`skill.worthy_action`, `skill.worthy_inaction` (renamed by
`replace_values`, lines 83-91). -/
structure ApiScalars where
  threshold : ℚ
  accuracy : ℚ
  act_in_vain : ℚ
  fail_to_act : ℚ
  worthy_action : ℚ
  worthy_inaction : ℚ
  deriving DecidableEq

/-- One exploded row of the nested time-series column of the export API
response: its `year` field and the value of the predictor column. -/
structure SeriesRow where
  year : ℤ
  predictorValue : ℚ
  deriving DecidableEq

/-- The export API response as seen by `get_data`: HTTP status code,
the scalar metrics and the nested time series. -/
structure ApiResponse where
  status_code : ℕ
  scalars : ApiScalars
  series : List SeriesRow
  deriving DecidableEq

/-- The parameters of `get_data` (utils.py lines 42-43) that influence the
returned table.  `region`, `username` and `password` only shape the HTTP
request, which is modelled by the explicit `ApiResponse` argument. -/
structure GetDataParams where
  maproom : String
  mode : ℕ
  season : String
  predictor : String
  predictand : String
  year : ℤ
  bad_years : List ℤ
  issue_month0 : ℕ
  freq : ℕ
  include_upcoming : String
  threshold_protocol : ℚ
  deriving DecidableEq

/-- One row of the table returned by `get_data`, with the fields in the
order of `desired_columns` (utils.py lines 146-149). -/
structure TriggerRow where
  year : ℤ
  freqPct : String
  issueMonth : Option String
  forecast : ℚ
  forecastThreshold : ℚ
  triggerDifference : ℚ
  forecastAccuracy : ℚ
  triggered : Bool
  adjustedForecastThreshold : ℚ
  thresholdProtocol : String
  triggeredAdjusted : Bool
  actInVain : ℚ
  failToAct : ℚ
  worthyAction : ℚ
  worthyInaction : ℚ
  designToolURL : String
  deriving DecidableEq

/-- The `month_mapping` dictionary (utils.py lines 126-139); `pd.Series.map`
yields NaN (here `none`) for a key outside 0-11. -/
def month_mapping (m : ℕ) : Option String :=
  match m with
  | 0 => some "Jan"
  | 1 => some "Feb"
  | 2 => some "Mar"
  | 3 => some "Apr"
  | 4 => some "May"
  | 5 => some "Jun"
  | 6 => some "Jul"
  | 7 => some "Aug"
  | 8 => some "Sep"
  | 9 => some "Oct"
  | 10 => some "Nov"
  | 11 => some "Dec"
  | _ => none

/-- The design-tool URL built at utils.py lines 56-58. -/
def tool_url (p : GetDataParams) : String :=
  "https://iridl.ldeo.columbia.edu/fbfmaproom2/" ++ p.maproom ++ "?mode=" ++ toString p.mode
    ++ "&map_column=" ++ p.predictor ++ "&season=" ++ p.season ++ "&predictors=" ++ p.predictor
    ++ "&predictand=" ++ p.predictand ++ "&year=" ++ toString p.year
    ++ "&issue_month0=" ++ toString p.issue_month0 ++ "&freq=" ++ toString p.freq
    ++ "&severity=0&include_upcoming=" ++ p.include_upcoming

/-- Embedding of `get_data` (utils.py lines 42-162).  On a 200 response the
derived columns are computed per series row (lines 99-102), the predictor
column is renamed to `Forecast` (line 103), rows are filtered to
`bad_years` (line 106), and the scalar-metric columns, formatted frequency,
issue-month name and design-tool link are appended (lines 117-143).  On any
other status the function returns an empty data frame (lines 160-162). -/
def get_data (p : GetDataParams) (resp : ApiResponse) : List TriggerRow :=
  if resp.status_code = 200 then
    let thr := resp.scalars.threshold
    let rows := resp.series.map (fun r =>
      ({ year := r.year,
         freqPct := toString p.freq ++ "%",
         issueMonth := month_mapping p.issue_month0,
         forecast := r.predictorValue,
         forecastThreshold := thr,
         triggerDifference := r.predictorValue - thr,
         forecastAccuracy := resp.scalars.accuracy,
         triggered := decide (r.predictorValue > thr),
         adjustedForecastThreshold := thr + p.threshold_protocol,
         thresholdProtocol := toString p.threshold_protocol,
         triggeredAdjusted := decide (r.predictorValue > thr),
         actInVain := resp.scalars.act_in_vain,
         failToAct := resp.scalars.fail_to_act,
         worthyAction := resp.scalars.worthy_action,
         worthyInaction := resp.scalars.worthy_inaction,
         designToolURL := "<a href=\x27" ++ tool_url p ++ "\x27>Design Tool Link</a>" } : TriggerRow))
    rows.filter (fun row => decide (row.year ∈ p.bad_years))
  else
    []

/-! ## Data model for `get_admin_data` (utils.py lines 166-210) -/

/-- One region returned by the regions endpoint: the `key`/`label` pair
extracted from the `regions` column (utils.py line 196). -/
structure Region where
  key : String
  label : String
  deriving DecidableEq

/-- The regions API response as seen by `get_admin_data`. -/
structure RegionsResponse where
  status_code : ℕ
  regions : List Region
  deriving DecidableEq

/-- Embedding of `get_admin_data` (utils.py lines 166-210).  On a 200
response it returns the key/label table, filtered to `valid_keys` exactly
when `level ≠ 0` and `need_valid_keys` is true (lines 198-201); on any
other status it prints an error and returns `None` (lines 207-210),
modelled as `none`. -/
def get_admin_data (resp : RegionsResponse) (level : ℕ) (need_valid_keys : Bool)
    (valid_keys : List String) : Option (List Region) :=
  if resp.status_code = 200 then
    let df := resp.regions
    let df :=
      if level ≠ 0 then
        if need_valid_keys = true then df.filter (fun r => decide (r.key ∈ valid_keys)) else df
      else df
    some df
  else
    none

/-! ## Data model for `get_trigger_tables` (utils.py lines 213-284) -/

/-- The shape of the value `get_trigger_tables` receives from
`get_admin_data`, as discriminated by the `isinstance` checks at utils.py
lines 251, 265 and 280: a pandas Series of key/label items, a DataFrame of
key/label rows, or anything else (in particular the `None` returned by
`get_admin_data` on a non-200 response). -/
inductive AdminOutput where
  | series (items : List (String × String))
  | dataframe (rows : List Region)
  | other
  deriving DecidableEq

/-- How the actual return value of `get_admin_data` is seen by the
`isinstance` checks of `get_trigger_tables`: a DataFrame when the fetch
succeeded, and an unexpected shape (`None`) otherwise. -/
def adminOutputOfOption : Option (List Region) → AdminOutput
  | some rows => AdminOutput.dataframe rows
  | none => AdminOutput.other

/-- The table name f-string at utils.py lines 254/269. -/
def table_name (freq mode month : ℕ) (region_key : String) : String :=
  "output_freq_" ++ toString freq ++ "_mode_" ++ toString mode ++ "_month_" ++ toString month
    ++ "_region_" ++ region_key ++ "_table"

/-- The admin-table collection name f-string at utils.py line 243. -/
def admin_name (mode : ℕ) : String :=
  "admin" ++ toString mode ++ "_tables"

/-- One loop body of `get_trigger_tables` (utils.py lines 254-263 and
269-278): fetch the table for one region with the current frequency and
issue month, and pair it with its table name and the region label that is
inserted as the `Admin Name` column. -/
def tablesForRegion (base : GetDataParams) (fetch : ℕ → ℕ → String → ApiResponse)
    (freq month : ℕ) (region_key label : String) : String × String × List TriggerRow :=
  let p := { base with freq := freq, issue_month0 := month }
  (table_name freq base.mode month region_key, label, get_data p (fetch freq month region_key))

/-- The body of the inner `for month` loop of `get_trigger_tables`: the
`isinstance` dispatch of utils.py lines 251-282, which raises a
`ValueError` when the resolver output is neither a Series nor a
DataFrame. -/
def tablesForPair (admin_data : AdminOutput) (base : GetDataParams)
    (fetch : ℕ → ℕ → String → ApiResponse) (freq month : ℕ) :
    Except String (List (String × String × List TriggerRow)) :=
  match admin_data with
  | AdminOutput.series items =>
      Except.ok (items.map (fun kv => tablesForRegion base fetch freq month kv.1 kv.2))
  | AdminOutput.dataframe rows =>
      Except.ok (rows.map (fun r => tablesForRegion base fetch freq month r.key r.label))
  | AdminOutput.other =>
      Except.error "Unexpected output type from get_admin_data."

/-- The inner `for month in issue_month` loop of `get_trigger_tables`
(utils.py lines 249-282), threading the accumulated tables; a
`ValueError` raised by the loop body aborts the whole loop. -/
def innerMonthLoop (admin_data : AdminOutput) (base : GetDataParams)
    (fetch : ℕ → ℕ → String → ApiResponse) (freq : ℕ) :
    List ℕ → List (String × String × List TriggerRow) →
    Except String (List (String × String × List TriggerRow))
  | [], acc => Except.ok acc
  | month :: months, acc =>
    match tablesForPair admin_data base fetch freq month with
    | Except.error e => Except.error e
    | Except.ok ts => innerMonthLoop admin_data base fetch freq months (acc ++ ts)

/-- The outer `for freq in frequencies` loop of `get_trigger_tables`
(utils.py line 248). -/
def outerFreqLoop (admin_data : AdminOutput) (base : GetDataParams)
    (fetch : ℕ → ℕ → String → ApiResponse) (issue_month : List ℕ) :
    List ℕ → List (String × String × List TriggerRow) →
    Except String (List (String × String × List TriggerRow))
  | [], acc => Except.ok acc
  | freq :: freqs, acc =>
    match innerMonthLoop admin_data base fetch freq issue_month acc with
    | Except.error e => Except.error e
    | Except.ok acc2 => outerFreqLoop admin_data base fetch issue_month freqs acc2

/-- Embedding of `get_trigger_tables` (utils.py lines 213-284): a double
loop over `frequencies` and `issue_month` accumulating named tables, with
the `raise ValueError` of line 282 modelled as `Except.error`.  The
resolver output is passed in (it is produced by `get_admin_data` at lines
245-246 and inspected by `adminOutputOfOption`); `fetch` models the HTTP
layer behind each `get_data` call. -/
def get_trigger_tables (admin_data : AdminOutput) (frequencies issue_month : List ℕ)
    (base : GetDataParams) (fetch : ℕ → ℕ → String → ApiResponse) :
    Except String (String × List (String × String × List TriggerRow)) :=
  match outerFreqLoop admin_data base fetch issue_month frequencies [] with
  | Except.error e => Except.error e
  | Except.ok tables => Except.ok (admin_name base.mode, tables)

/-! ## Data model for `calculate_ev_rarop` (utils.py lines 525-577) -/

/-- One input row of `calculate_ev_rarop`: the four skill-count columns it
reads, together with the values of all other pre-existing columns
(kept as an opaque association list, untouched by the function). -/
structure DataRow where
  worthyAction : ℚ
  actInVain : ℚ
  worthyInaction : ℚ
  failToAct : ℚ
  otherCols : List (String × ℚ)
  deriving DecidableEq

/-- One output row of `calculate_ev_rarop`: the unchanged input row plus
the five added columns `EV`, `EV_norm`, `Risk`, `Reward`, `RARoP`.
`Option ℚ` models pandas NaN (from a zero denominator) and the `None` a
row gets when `risk_tolerance` is outside [0, 1]. -/
structure EvalRow where
  base : DataRow
  ev : ℚ
  evNorm : Option ℚ
  risk : Option ℚ
  reward : Option ℚ
  rarop : Option ℚ
  deriving DecidableEq

/-- Division as pandas performs it on data-frame columns: a zero
denominator yields NaN (`none`) instead of a crash. -/
def nanDiv (a b : ℚ) : Option ℚ :=
  if b = 0 then none else some (a / b)

/-- The `EV` weighted sum of utils.py lines 544-549. -/
def evOf (r : DataRow) (value_true_positive cost_false_positive value_true_negative
    cost_false_negative : ℚ) : ℚ :=
  r.worthyAction * value_true_positive + r.actInVain * cost_false_positive
    + r.worthyInaction * value_true_negative + r.failToAct * cost_false_negative

/-- The `.min()` of a data-frame column: `none` on an empty frame
(pandas NaN), otherwise the least element. -/
def columnMin : List ℚ → Option ℚ
  | [] => none
  | x :: xs => some (xs.foldl min x)

/-- The `.max()` of a data-frame column: `none` on an empty frame
(pandas NaN), otherwise the greatest element. -/
def columnMax : List ℚ → Option ℚ
  | [] => none
  | x :: xs => some (xs.foldl max x)

/-- The per-row `calculate_rarop` closure of utils.py lines 566-573:
`Reward - Risk/risk_tolerance` for `risk_tolerance` in (0, 1],
`Reward - 10` when `risk_tolerance = 0`, and otherwise the `None` that
Python's `return print(...)` produces.  NaN operands (absent risk or
reward) propagate to a NaN result, as in pandas. -/
def calculate_rarop (risk reward : Option ℚ) (risk_tolerance : ℚ) : Option ℚ :=
  if 0 < risk_tolerance ∧ risk_tolerance ≤ 1 then
    match reward, risk with
    | some rw, some rk => some (rw - rk / risk_tolerance)
    | _, _ => none
  else if risk_tolerance = 0 then
    match reward with
    | some rw => some (rw - 10)
    | none => none
  else
    none

/-- Embedding of `calculate_ev_rarop` (utils.py lines 525-577).  The
function assigns the `EV` column (lines 544-549), min-max normalizes it
over the batch (lines 551-553), computes `Risk` and `Reward` as ratios of
skill counts (lines 555-563), applies `calculate_rarop` row-wise
(line 575) and returns the mutated data frame (line 577); in this state-
passing embedding the returned list is the updated state of the input. -/
def calculate_ev_rarop (dataframe : List DataRow) (value_true_positive cost_false_positive
    value_true_negative cost_false_negative risk_tolerance : ℚ) : List EvalRow :=
  let evs := dataframe.map (fun r =>
    evOf r value_true_positive cost_false_positive value_true_negative cost_false_negative)
  let ev_min := columnMin evs
  let ev_max := columnMax evs
  dataframe.map (fun r =>
    let ev := evOf r value_true_positive cost_false_positive value_true_negative
      cost_false_negative
    let ev_norm :=
      match ev_min, ev_max with
      | some mn, some mx => nanDiv (ev - mn) (mx - mn)
      | _, _ => none
    let total := r.worthyAction + r.actInVain + r.worthyInaction + r.failToAct
    let risk := nanDiv (r.actInVain + r.failToAct) total
    let reward := nanDiv (r.worthyAction + r.worthyInaction) total
    { base := r, ev := ev, evNorm := ev_norm, risk := risk, reward := reward,
      rarop := calculate_rarop risk reward risk_tolerance })

/-! ## Concrete fixtures used by witnesses and end-to-end checks -/

/-- Fixture scalar metrics: threshold 10, accuracy 0.8, act-in-vain 2,
fail-to-act 3, worthy-action 5, worthy-inaction 4. -/
def fxScalars : ApiScalars :=
  { threshold := 10, accuracy := 0.8, act_in_vain := 2, fail_to_act := 3,
    worthy_action := 5, worthy_inaction := 4 }

/-- Fixture export response: status 200, with a 2019 row (filtered out)
and a 2020 row with predictor value 12. -/
def fxResp : ApiResponse :=
  { status_code := 200, scalars := fxScalars,
    series := [{ year := 2019, predictorValue := 7 }, { year := 2020, predictorValue := 12 }] }

/-- Fixture `get_data` parameters: bad_years [2020], threshold protocol 5. -/
def fxParams : GetDataParams :=
  { maproom := "djibouti", mode := 0, season := "season1", predictor := "pnep",
    predictand := "bad-years", year := 2024, bad_years := [2020], issue_month0 := 2,
    freq := 30, include_upcoming := "false", threshold_protocol := 5 }

/-- Fixture export response with a failing HTTP status. -/
def fxRespErr : ApiResponse :=
  { status_code := 500, scalars := fxScalars, series := fxResp.series }

/-- An all-default row, used only as the fallback of `List.headD`. -/
def blankRow : TriggerRow :=
  { year := 0, freqPct := "", issueMonth := none, forecast := 0, forecastThreshold := 0,
    triggerDifference := 0, forecastAccuracy := 0, triggered := false,
    adjustedForecastThreshold := 0, thresholdProtocol := "", triggeredAdjusted := false,
    actInVain := 0, failToAct := 0, worthyAction := 0, worthyInaction := 0,
    designToolURL := "" }

/-- The single row `get_data` produces on the fixture inputs. -/
def fxRow : TriggerRow :=
  (get_data fxParams fxResp).headD blankRow


/-- Fixture regions response: status 200 with two key/label pairs. -/
def rgResp : RegionsResponse :=
  { status_code := 200,
    regions := [{ key := "dj01", label := "Obock" }, { key := "dj02", label := "Tadjourah" }] }

/-- Fixture regions response with a failing HTTP status. -/
def rgRespErr : RegionsResponse :=
  { status_code := 404, regions := [] }

/-- Fixture fetch oracle: every request yields the fixture response. -/
def fxFetch : ℕ → ℕ → String → ApiResponse :=
  fun _ _ _ => fxResp


/-- Fixture skill-count table for `calculate_ev_rarop`: two rows with
distinct EV values under the fixture coefficients, the second carrying a
pre-existing extra column. -/
def evDf : List DataRow :=
  [{ worthyAction := 5, actInVain := 2, worthyInaction := 4, failToAct := 3, otherCols := [] },
   { worthyAction := 1, actInVain := 0, worthyInaction := 1, failToAct := 0,
     otherCols := [("Year", 2020)] }]

/-- An all-default output row, used only as the fallback of `List.headD`. -/
def blankEvalRow : EvalRow :=
  { base := { worthyAction := 0, actInVain := 0, worthyInaction := 0, failToAct := 0,
              otherCols := [] },
    ev := 0, evNorm := none, risk := none, reward := none, rarop := none }

/-- The first output row of `calculate_ev_rarop` on the fixture table with
coefficients 4, -1, 2, -3 and risk tolerance 1/2. -/
def evRow : EvalRow :=
  (calculate_ev_rarop evDf 4 (-1) 2 (-3) (1/2)).headD blankEvalRow

/-! ## Helper lemmas -/

/-- The head (with default) of a non-empty list is a member. -/
theorem headD_mem {α : Type} (l : List α) (d : α) (h : l ≠ []) : l.headD d ∈ l := by
  cases l with
  | nil => exact absurd rfl h
  | cons x xs => simp [List.headD]

/-- Any row of a `get_data` table comes from a series row of the response,
and its derived columns are the expressions of utils.py lines 99-102. -/
theorem get_data_row_shape {p : GetDataParams} {resp : ApiResponse} {r : TriggerRow}
    (hr : r ∈ get_data p resp) :
    resp.status_code = 200 ∧ ∃ s ∈ resp.series,
      r.forecast = s.predictorValue
        ∧ r.forecastThreshold = resp.scalars.threshold
        ∧ r.triggerDifference = s.predictorValue - resp.scalars.threshold
        ∧ r.triggered = decide (s.predictorValue > resp.scalars.threshold)
        ∧ r.triggeredAdjusted = decide (s.predictorValue > resp.scalars.threshold)
        ∧ r.adjustedForecastThreshold = resp.scalars.threshold + p.threshold_protocol := by
  rw [get_data] at hr
  split at hr
  · next h200 =>
    simp only [List.mem_filter, List.mem_map] at hr
    obtain ⟨⟨s, hs, rfl⟩, -⟩ := hr
    exact ⟨h200, s, hs, rfl, rfl, rfl, rfl, rfl, rfl⟩
  · simp at hr

/-- The fixture row is a member of the fixture table. -/
theorem fxRow_mem : fxRow ∈ get_data fxParams fxResp := by
  apply headD_mem
  norm_num [get_data, fxParams, fxResp, fxScalars]

/-! ## Claim theorems for `get_data` -/

/-- C1: in `get_data`, the `Triggered Adjusted` column is computed with the
same comparison as `Triggered` — forecast > unadjusted threshold — for
every row, even though `Adjusted Forecast Threshold` equals
threshold + threshold_protocol; and there are inputs on which
`Triggered Adjusted` differs from (Forecast > Adjusted Forecast
Threshold). -/
theorem get_data_triggered_adjusted_unadjusted
    (p : GetDataParams) (resp : ApiResponse) (r : TriggerRow)
    (hr : r ∈ get_data p resp) :
    r.triggeredAdjusted = decide (r.forecast > r.forecastThreshold)
      ∧ r.triggeredAdjusted = r.triggered
      ∧ r.adjustedForecastThreshold = r.forecastThreshold + p.threshold_protocol
      ∧ ∃ (p1 : GetDataParams) (resp1 : ApiResponse),
          (get_data p1 resp1).map
            (fun r1 => (r1.triggeredAdjusted, decide (r1.forecast > r1.adjustedForecastThreshold)))
            = [(true, false)] := by
  obtain ⟨-, s, -, hf, hth, -, htr, hta, hadj⟩ := get_data_row_shape hr
  refine ⟨by rw [hta, hf, hth], by rw [hta, htr], by rw [hadj, hth], fxParams, fxResp, ?_⟩
  norm_num [get_data, fxParams, fxResp, fxScalars]

/-- Witness for C1, at the fixture row. -/
theorem get_data_triggered_adjusted_unadjusted_witness :
    fxRow.triggeredAdjusted = decide (fxRow.forecast > fxRow.forecastThreshold)
      ∧ fxRow.triggeredAdjusted = fxRow.triggered
      ∧ fxRow.adjustedForecastThreshold = fxRow.forecastThreshold + fxParams.threshold_protocol
      ∧ ∃ (p1 : GetDataParams) (resp1 : ApiResponse),
          (get_data p1 resp1).map
            (fun r1 => (r1.triggeredAdjusted, decide (r1.forecast > r1.adjustedForecastThreshold)))
            = [(true, false)] :=
  get_data_triggered_adjusted_unadjusted fxParams fxResp fxRow fxRow_mem

/-- C2: for every row of the table returned by `get_data`, the
`Trigger Difference` column equals `Forecast` minus `Forecast Threshold`,
and `Triggered` holds exactly when `Forecast` strictly exceeds
`Forecast Threshold`. -/
theorem get_data_trigger_invariants
    (p : GetDataParams) (resp : ApiResponse) (r : TriggerRow)
    (hr : r ∈ get_data p resp) :
    r.triggerDifference = r.forecast - r.forecastThreshold
      ∧ (r.triggered = true ↔ r.forecast > r.forecastThreshold) := by
  obtain ⟨-, s, -, hf, hth, hd, htr, -, -⟩ := get_data_row_shape hr
  constructor
  · rw [hd, hf, hth]
  · rw [htr, hf, hth]
    exact decide_eq_true_iff

/-- Witness for C2, at the fixture row. -/
theorem get_data_trigger_invariants_witness :
    fxRow.triggerDifference = fxRow.forecast - fxRow.forecastThreshold
      ∧ (fxRow.triggered = true ↔ fxRow.forecast > fxRow.forecastThreshold) :=
  get_data_trigger_invariants fxParams fxResp fxRow fxRow_mem

/-- C6: on every non-200 HTTP status, `get_data` returns the empty table;
in this total embedding no exception is possible. -/
theorem get_data_non200_empty (p : GetDataParams) (resp : ApiResponse)
    (h : resp.status_code ≠ 200) : get_data p resp = [] := by
  rw [get_data, if_neg h]

/-- Witness for C6, at the status-500 fixture response. -/
theorem get_data_non200_empty_witness : get_data fxParams fxRespErr = [] :=
  get_data_non200_empty fxParams fxRespErr (by decide)

/-- C8: on the fixture response (threshold 10, accuracy 0.8, act-in-vain 2,
fail-to-act 3, worthy-action 5, worthy-inaction 4; series rows for 2019
and 2020 with predictor value 12 in 2020) and bad_years = [2020],
`get_data` yields exactly one row, with Forecast 12, Triggered true,
Trigger Difference 2 and Forecast Threshold 10. -/
theorem get_data_fixture_end_to_end :
    (get_data fxParams fxResp).length = 1
      ∧ (get_data fxParams fxResp).map
          (fun r => (r.forecast, r.triggered, r.triggerDifference, r.forecastThreshold))
          = [(12, true, 2, 10)] := by
  constructor <;> norm_num [get_data, fxParams, fxResp, fxScalars]

/-! ## Claim theorems for `get_admin_data` and `get_trigger_tables` -/

/-- C5: on a 200 response, `get_admin_data` filters the fetched key/label
pairs to the caller-supplied whitelist exactly when `level ≠ 0` and
`need_valid_keys` is true; in every other case — in particular whenever
`level = 0`, regardless of the flag — it returns all fetched regions. -/
theorem get_admin_data_filtering (resp : RegionsResponse) (level : ℕ)
    (need_valid_keys : Bool) (valid_keys : List String)
    (h200 : resp.status_code = 200) :
    get_admin_data resp level need_valid_keys valid_keys
      = some (if level ≠ 0 ∧ need_valid_keys = true
          then resp.regions.filter (fun r => decide (r.key ∈ valid_keys))
          else resp.regions) := by
  rw [get_admin_data, if_pos h200]
  by_cases h0 : level = 0
  · simp [h0]
  · by_cases hv : need_valid_keys = true
    · simp [h0, hv]
    · simp [h0, hv]

/-- Witness for C5, at the fixture regions response with level 3 and
whitelist ["dj02"]. -/
theorem get_admin_data_filtering_witness :
    get_admin_data rgResp 3 true ["dj02"]
      = some (if (3 : ℕ) ≠ 0 ∧ true = true
          then rgResp.regions.filter (fun r => decide (r.key ∈ ["dj02"]))
          else rgResp.regions) :=
  get_admin_data_filtering rgResp 3 true ["dj02"] (by decide)

/-- A non-`other` resolver shape never makes the inner month loop fail. -/
theorem innerMonthLoop_ok_of_ne_other (admin_data : AdminOutput) (base : GetDataParams)
    (fetch : ℕ → ℕ → String → ApiResponse) (freq : ℕ)
    (h : admin_data ≠ AdminOutput.other) :
    ∀ (months : List ℕ) (acc : List (String × String × List TriggerRow)),
      ∃ v, innerMonthLoop admin_data base fetch freq months acc = Except.ok v := by
  intro months
  induction months with
  | nil => exact fun acc => ⟨acc, rfl⟩
  | cons m ms ih =>
    intro acc
    cases admin_data with
    | other => exact absurd rfl h
    | series items => simpa [innerMonthLoop, tablesForPair] using ih _
    | dataframe rows => simpa [innerMonthLoop, tablesForPair] using ih _

/-- A non-`other` resolver shape never makes the outer frequency loop
fail. -/
theorem outerFreqLoop_ok_of_ne_other (admin_data : AdminOutput) (base : GetDataParams)
    (fetch : ℕ → ℕ → String → ApiResponse) (issue_month : List ℕ)
    (h : admin_data ≠ AdminOutput.other) :
    ∀ (freqs : List ℕ) (acc : List (String × String × List TriggerRow)),
      ∃ v, outerFreqLoop admin_data base fetch issue_month freqs acc = Except.ok v := by
  intro freqs
  induction freqs with
  | nil => exact fun acc => ⟨acc, rfl⟩
  | cons f fs ih =>
    intro acc
    obtain ⟨v, hv⟩ := innerMonthLoop_ok_of_ne_other admin_data base fetch f h issue_month acc
    obtain ⟨w, hw⟩ := ih v
    refine ⟨w, ?_⟩
    rw [outerFreqLoop, hv]
    exact hw

/-- C7 (amended): when the frequency and issue-month lists are both
non-empty, `get_trigger_tables` fails with the `ValueError` exactly when
the resolver output is neither a Series nor a DataFrame; and
`get_admin_data` turns every non-200 response into such an unexpected
shape (`None`) rather than raising itself. -/
theorem get_trigger_tables_value_error (admin_data : AdminOutput)
    (frequencies issue_month : List ℕ) (base : GetDataParams)
    (fetch : ℕ → ℕ → String → ApiResponse)
    (hfr : frequencies ≠ []) (hmo : issue_month ≠ []) :
    ((∃ e, get_trigger_tables admin_data frequencies issue_month base fetch = Except.error e)
        ↔ admin_data = AdminOutput.other)
      ∧ ∀ (resp : RegionsResponse) (level : ℕ) (nvk : Bool) (vk : List String),
          resp.status_code ≠ 200 →
          adminOutputOfOption (get_admin_data resp level nvk vk) = AdminOutput.other := by
  constructor
  · constructor
    · rintro ⟨e, he⟩
      by_contra hne
      obtain ⟨v, hv⟩ :=
        outerFreqLoop_ok_of_ne_other admin_data base fetch issue_month hne frequencies []
      rw [get_trigger_tables, hv] at he
      exact absurd he (by simp)
    · rintro rfl
      cases frequencies with
      | nil => exact absurd rfl hfr
      | cons f fs =>
        cases issue_month with
        | nil => exact absurd rfl hmo
        | cons m ms =>
          exact ⟨"Unexpected output type from get_admin_data.", rfl⟩
  · intro resp level nvk vk h
    rw [get_admin_data, if_neg h]
    rfl

/-- Witness for C7 (amended), with the `other` resolver shape and
singleton frequency and month lists. -/
theorem get_trigger_tables_value_error_witness :
    ((∃ e, get_trigger_tables AdminOutput.other [10] [2] fxParams fxFetch = Except.error e)
        ↔ AdminOutput.other = AdminOutput.other)
      ∧ ∀ (resp : RegionsResponse) (level : ℕ) (nvk : Bool) (vk : List String),
          resp.status_code ≠ 200 →
          adminOutputOfOption (get_admin_data resp level nvk vk) = AdminOutput.other :=
  get_trigger_tables_value_error AdminOutput.other [10] [2] fxParams fxFetch
    (by decide) (by decide)

/-- Counterexample to C7 as stated: with an empty frequency list the
`isinstance` dispatch inside the loops never runs, so a resolver output
that is neither a Series nor a DataFrame does not raise; the call returns
an ordinary (empty) table collection. -/
theorem get_trigger_tables_no_error_on_empty_frequencies :
    get_trigger_tables AdminOutput.other [] [2] fxParams fxFetch
      = Except.ok (admin_name fxParams.mode, []) := rfl

/-! ## Claim theorems for `calculate_ev_rarop` -/

/-- A left fold of `min` is below its initial value. -/
theorem foldl_min_le_init (xs : List ℚ) : ∀ x : ℚ, xs.foldl min x ≤ x := by
  induction xs with
  | nil => exact fun x => le_refl x
  | cons y ys ih => exact fun x => le_trans (ih (min x y)) (min_le_left x y)

/-- A left fold of `min` is below every list element. -/
theorem foldl_min_le_of_mem (xs : List ℚ) (a : ℚ) (ha : a ∈ xs) :
    ∀ x : ℚ, xs.foldl min x ≤ a := by
  induction xs with
  | nil => exact absurd ha (List.not_mem_nil a)
  | cons y ys ih =>
    intro x
    rcases List.mem_cons.mp ha with h | h
    · subst h
      exact le_trans (foldl_min_le_init ys (min x a)) (min_le_right x a)
    · exact ih h (min x y)

/-- A left fold of `max` is above its initial value. -/
theorem le_foldl_max_init (xs : List ℚ) : ∀ x : ℚ, x ≤ xs.foldl max x := by
  induction xs with
  | nil => exact fun x => le_refl x
  | cons y ys ih => exact fun x => le_trans (le_max_left x y) (ih (max x y))

/-- A left fold of `max` is above every list element. -/
theorem le_foldl_max_of_mem (xs : List ℚ) (a : ℚ) (ha : a ∈ xs) :
    ∀ x : ℚ, a ≤ xs.foldl max x := by
  induction xs with
  | nil => exact absurd ha (List.not_mem_nil a)
  | cons y ys ih =>
    intro x
    rcases List.mem_cons.mp ha with h | h
    · subst h
      exact le_trans (le_max_right x a) (le_foldl_max_init ys (max x a))
    · exact ih h (max x y)

/-- The column minimum is below every column entry. -/
theorem columnMin_le_of_mem {l : List ℚ} {m a : ℚ}
    (hm : columnMin l = some m) (ha : a ∈ l) : m ≤ a := by
  cases l with
  | nil => simp [columnMin] at hm
  | cons x xs =>
    rw [columnMin] at hm
    injection hm with hm
    subst hm
    rcases List.mem_cons.mp ha with h | h
    · subst h
      exact foldl_min_le_init xs a
    · exact foldl_min_le_of_mem xs a h x

/-- The column maximum is above every column entry. -/
theorem le_columnMax_of_mem {l : List ℚ} {m a : ℚ}
    (hm : columnMax l = some m) (ha : a ∈ l) : a ≤ m := by
  cases l with
  | nil => simp [columnMax] at hm
  | cons x xs =>
    rw [columnMax] at hm
    injection hm with hm
    subst hm
    rcases List.mem_cons.mp ha with h | h
    · subst h
      exact le_foldl_max_init xs a
    · exact le_foldl_max_of_mem xs a h x

/-- Any row of a `calculate_ev_rarop` result comes from an input row, with
its added columns given by the formulas of utils.py lines 544-575. -/
theorem calculate_ev_rarop_row_shape {df : List DataRow}
    {vtp cfp vtn cfn rt : ℚ} {er : EvalRow}
    (h : er ∈ calculate_ev_rarop df vtp cfp vtn cfn rt) :
    ∃ r ∈ df,
      er.base = r
        ∧ er.ev = evOf r vtp cfp vtn cfn
        ∧ er.evNorm =
            (match columnMin (df.map (fun x => evOf x vtp cfp vtn cfn)),
                   columnMax (df.map (fun x => evOf x vtp cfp vtn cfn)) with
             | some mn, some mx => nanDiv (evOf r vtp cfp vtn cfn - mn) (mx - mn)
             | _, _ => none)
        ∧ er.risk = nanDiv (r.actInVain + r.failToAct)
            (r.worthyAction + r.actInVain + r.worthyInaction + r.failToAct)
        ∧ er.reward = nanDiv (r.worthyAction + r.worthyInaction)
            (r.worthyAction + r.actInVain + r.worthyInaction + r.failToAct)
        ∧ er.rarop = calculate_rarop er.risk er.reward rt := by
  rw [calculate_ev_rarop] at h
  simp only [List.mem_map] at h
  obtain ⟨r, hr, rfl⟩ := h
  exact ⟨r, hr, rfl, rfl, rfl, rfl, rfl, rfl⟩

/-- C3: for a row with defined Risk and Reward, `RARoP` is
Reward - Risk/risk_tolerance when the tolerance lies in (0, 1],
Reward - 10 when it is 0, and the `None` marker (with no exception) for
any tolerance outside [0, 1]; moreover on a call with tolerance 1/2 every
row satisfies RARoP = Reward - 2 * Risk (with NaN propagation). -/
theorem calculate_ev_rarop_rarop_formula (df : List DataRow)
    (vtp cfp vtn cfn rt : ℚ) (er : EvalRow) (k w : ℚ)
    (h : er ∈ calculate_ev_rarop df vtp cfp vtn cfn rt)
    (hk : er.risk = some k) (hw : er.reward = some w) :
    er.rarop = (if 0 < rt ∧ rt ≤ 1 then some (w - k / rt)
        else if rt = 0 then some (w - 10) else none)
      ∧ (calculate_ev_rarop df vtp cfp vtn cfn (1/2)).map EvalRow.rarop
          = (calculate_ev_rarop df vtp cfp vtn cfn (1/2)).map
              (fun e => e.reward.bind (fun w2 => e.risk.map (fun k2 => w2 - 2 * k2))) := by
  constructor
  · obtain ⟨r, -, -, -, -, -, -, hrarop⟩ := calculate_ev_rarop_row_shape h
    rw [hrarop, hk, hw, calculate_rarop]
  · apply List.map_congr_left
    intro e he
    obtain ⟨r, -, -, -, -, -, -, hrarop⟩ := calculate_ev_rarop_row_shape he
    have h12 : (0 : ℚ) < 1/2 ∧ (1/2 : ℚ) ≤ 1 := by norm_num
    cases hw2 : e.reward with
    | none =>
      rw [hrarop, hw2, calculate_rarop.eq_def, if_pos h12]
      cases e.risk <;> rfl
    | some w2 =>
      cases hk2 : e.risk with
      | none =>
        rw [hrarop, hw2, hk2, calculate_rarop.eq_def, if_pos h12]
        simp
      | some k2 =>
        rw [hrarop, hw2, hk2, calculate_rarop.eq_def, if_pos h12]
        show some (w2 - k2 / (1/2)) = some (w2 - 2 * k2)
        rw [Option.some_inj, div_div_eq_mul_div, div_one, sub_right_inj, mul_comm]

/-- Witness for C3, at the first fixture row (Risk 5/14, Reward 9/14)
with risk tolerance 1/2. -/
theorem calculate_ev_rarop_rarop_formula_witness :
    evRow.rarop = (if 0 < (1/2 : ℚ) ∧ (1/2 : ℚ) ≤ 1
        then some ((9/14 : ℚ) - (5/14 : ℚ) / (1/2))
        else if (1/2 : ℚ) = 0 then some ((9/14 : ℚ) - 10) else none)
      ∧ (calculate_ev_rarop evDf 4 (-1) 2 (-3) (1/2)).map EvalRow.rarop
          = (calculate_ev_rarop evDf 4 (-1) 2 (-3) (1/2)).map
              (fun e => e.reward.bind (fun w2 => e.risk.map (fun k2 => w2 - 2 * k2))) :=
  calculate_ev_rarop_rarop_formula evDf 4 (-1) 2 (-3) (1/2) evRow (5/14) (9/14)
    (headD_mem _ _ (by simp [calculate_ev_rarop, evDf]))
    (by norm_num [evRow, calculate_ev_rarop, evDf, evOf, nanDiv, columnMin, columnMax,
      calculate_rarop, blankEvalRow])
    (by norm_num [evRow, calculate_ev_rarop, evDf, evOf, nanDiv, columnMin, columnMax,
      calculate_rarop, blankEvalRow])

/-- C9: for every output row whose four skill counts have a nonzero sum,
Risk and Reward are the two complementary fractions of the total outcome
count, so Risk + Reward = 1. -/
theorem calculate_ev_rarop_risk_reward_sum (df : List DataRow)
    (vtp cfp vtn cfn rt : ℚ) (er : EvalRow)
    (h : er ∈ calculate_ev_rarop df vtp cfp vtn cfn rt)
    (hsum : er.base.worthyAction + er.base.actInVain + er.base.worthyInaction
      + er.base.failToAct ≠ 0) :
    er.risk = some ((er.base.actInVain + er.base.failToAct)
        / (er.base.worthyAction + er.base.actInVain + er.base.worthyInaction
          + er.base.failToAct))
      ∧ er.reward = some ((er.base.worthyAction + er.base.worthyInaction)
        / (er.base.worthyAction + er.base.actInVain + er.base.worthyInaction
          + er.base.failToAct))
      ∧ (er.base.actInVain + er.base.failToAct)
          / (er.base.worthyAction + er.base.actInVain + er.base.worthyInaction
            + er.base.failToAct)
        + (er.base.worthyAction + er.base.worthyInaction)
          / (er.base.worthyAction + er.base.actInVain + er.base.worthyInaction
            + er.base.failToAct) = 1 := by
  obtain ⟨r, -, hbase, -, -, hrisk, hreward, -⟩ := calculate_ev_rarop_row_shape h
  rw [hbase] at hsum ⊢
  refine ⟨by rw [hrisk, nanDiv, if_neg hsum], by rw [hreward, nanDiv, if_neg hsum], ?_⟩
  rw [div_add_div_same, show r.actInVain + r.failToAct + (r.worthyAction + r.worthyInaction)
    = r.worthyAction + r.actInVain + r.worthyInaction + r.failToAct by ring]
  exact div_self hsum

/-- Witness for C9, at the first fixture row (counts 5, 2, 4, 3). -/
theorem calculate_ev_rarop_risk_reward_sum_witness :
    evRow.risk = some ((evRow.base.actInVain + evRow.base.failToAct)
        / (evRow.base.worthyAction + evRow.base.actInVain + evRow.base.worthyInaction
          + evRow.base.failToAct))
      ∧ evRow.reward = some ((evRow.base.worthyAction + evRow.base.worthyInaction)
        / (evRow.base.worthyAction + evRow.base.actInVain + evRow.base.worthyInaction
          + evRow.base.failToAct))
      ∧ (evRow.base.actInVain + evRow.base.failToAct)
          / (evRow.base.worthyAction + evRow.base.actInVain + evRow.base.worthyInaction
            + evRow.base.failToAct)
        + (evRow.base.worthyAction + evRow.base.worthyInaction)
          / (evRow.base.worthyAction + evRow.base.actInVain + evRow.base.worthyInaction
            + evRow.base.failToAct) = 1 :=
  calculate_ev_rarop_risk_reward_sum evDf 4 (-1) 2 (-3) (1/2) evRow
    (headD_mem _ _ (by simp [calculate_ev_rarop, evDf]))
    (by norm_num [evRow, calculate_ev_rarop, evDf, evOf, nanDiv, columnMin, columnMax,
      calculate_rarop, blankEvalRow])

/-- C4: `EV_norm` is the min-max normalization of `EV` over the batch:
when the column minimum and maximum differ, every row's `EV_norm` is the
defined value (EV - min)/(max - min), which lies in [0, 1]; when they
coincide (all EV values equal), the zero denominator makes every row's
`EV_norm` the NaN constant rather than a crash. -/
theorem calculate_ev_rarop_evnorm_minmax (df : List DataRow)
    (vtp cfp vtn cfn rt : ℚ) (er : EvalRow) (mn mx : ℚ)
    (h : er ∈ calculate_ev_rarop df vtp cfp vtn cfn rt)
    (hmn : columnMin (df.map (fun x => evOf x vtp cfp vtn cfn)) = some mn)
    (hmx : columnMax (df.map (fun x => evOf x vtp cfp vtn cfn)) = some mx) :
    (mn ≠ mx → er.evNorm = some ((er.ev - mn) / (mx - mn))
        ∧ 0 ≤ (er.ev - mn) / (mx - mn) ∧ (er.ev - mn) / (mx - mn) ≤ 1)
      ∧ (mn = mx → er.evNorm = none) := by
  obtain ⟨r, hr, -, hev, hevn, -, -, -⟩ := calculate_ev_rarop_row_shape h
  rw [hmn, hmx] at hevn
  have hevn2 : er.evNorm = nanDiv (evOf r vtp cfp vtn cfn - mn) (mx - mn) := by
    rw [hevn]
  have hmem : evOf r vtp cfp vtn cfn ∈ df.map (fun x => evOf x vtp cfp vtn cfn) :=
    List.mem_map.mpr ⟨r, hr, rfl⟩
  have hlow : mn ≤ evOf r vtp cfp vtn cfn := columnMin_le_of_mem hmn hmem
  have hhigh : evOf r vtp cfp vtn cfn ≤ mx := le_columnMax_of_mem hmx hmem
  constructor
  · intro hne
    have hlt : mn < mx := lt_of_le_of_ne (le_trans hlow hhigh) hne
    have hd : mx - mn ≠ 0 := sub_ne_zero.mpr (ne_of_gt hlt)
    refine ⟨by rw [hevn2, hev, nanDiv, if_neg hd], ?_, ?_⟩
    · exact div_nonneg (by rw [hev]; linarith) (by linarith)
    · rw [div_le_one (by linarith)]
      rw [hev]
      linarith
  · intro he
    rw [hevn2, he, sub_self, nanDiv, if_pos rfl]

/-- Witness for C4, at the first fixture row (EV 17, column min 6,
column max 17). -/
theorem calculate_ev_rarop_evnorm_minmax_witness :
    ((6 : ℚ) ≠ 17 → evRow.evNorm = some ((evRow.ev - 6) / (17 - 6))
        ∧ 0 ≤ (evRow.ev - 6) / (17 - 6) ∧ (evRow.ev - 6) / (17 - 6) ≤ 1)
      ∧ ((6 : ℚ) = 17 → evRow.evNorm = none) :=
  calculate_ev_rarop_evnorm_minmax evDf 4 (-1) 2 (-3) (1/2) evRow 6 17
    (headD_mem _ _ (by simp [calculate_ev_rarop, evDf]))
    (by norm_num [columnMin, evDf, evOf])
    (by norm_num [columnMax, evDf, evOf])

/-- C10: `calculate_ev_rarop` returns the updated data frame itself (the
mutation is modelled by explicit state passing): every pre-existing column
of every input row is carried over unchanged in the `base` component, row
for row, and the output type adds exactly the five columns `EV`,
`EV_norm`, `Risk`, `Reward` and `RARoP`. -/
theorem calculate_ev_rarop_preserves_input (df : List DataRow)
    (vtp cfp vtn cfn rt : ℚ) :
    (calculate_ev_rarop df vtp cfp vtn cfn rt).map EvalRow.base = df
      ∧ (calculate_ev_rarop df vtp cfp vtn cfn rt).length = df.length := by
  constructor
  · rw [calculate_ev_rarop, List.map_map]
    exact List.map_id df
  · rw [calculate_ev_rarop, List.length_map]
